import Mathlib

/-!
Verification development for the risk-assessment-ai repository.

The subject is the budget-gated inference layer documented in
`docs/WATSONX_INTEGRATION.md` (the `WatsonXService`, `TokenTracker`,
`build_risk_prompt`, response cache) together with the frontend API client
(`lib/api.ts`): the budget admission discipline, the rule-based fallback,
response parsing, retry behaviour, the response cache, error propagation
of the `/explain` endpoint, and the UI risk classifier `getRiskLevel`.

Numbers that are Python floats in the source (budgets, costs, risk scores,
timestamps) are modelled as rationals `ℚ`; all the thresholds and
arithmetic involved are exact at this precision.
-/

/-- JSON values, the result type of Python's `json.loads` as used by
`WatsonXService._parse_response`.  Objects keep their key order, as Python
dicts do. -/
inductive Json where
  | null
  | bool (b : Bool)
  | num (q : ℚ)
  | str (s : String)
  | arr (elems : List Json)
  | obj (members : List (String × Json))
deriving Repr

/-- Abbreviation for object members, to state helper lemmas. -/
abbrev JsonMembers := List (String × Json)

/-- Left brace character (written via its code point). -/
def lbrace : Char := Char.ofNat 123

/-- Right brace character (written via its code point). -/
def rbrace : Char := Char.ofNat 125

/-- Skip JSON whitespace. -/
def skipWs : List Char → List Char
  | [] => []
  | c :: cs => if c = ' ' ∨ c = '\n' ∨ c = '\t' ∨ c = '\r' then skipWs cs else c :: cs

/-- Body of a JSON string after the opening quote: returns the decoded
characters and the rest of the input after the closing quote.  Fuelled so
that every recursive call consumes fuel. -/
def parseStrBody : Nat → List Char → Option (List Char × List Char)
  | 0, _ => none
  | _ + 1, [] => none
  | fuel + 1, c :: cs =>
    if c = '"' then some ([], cs)
    else if c = '\\' then
      match cs with
      | [] => none
      | e :: cs' =>
        let ec := if e = 'n' then '\n' else if e = 't' then '\t'
                  else if e = 'r' then '\r' else e
        (parseStrBody fuel cs').map (fun p => (ec :: p.1, p.2))
    else
      (parseStrBody fuel cs).map (fun p => (c :: p.1, p.2))

/-- Take a maximal run of decimal digits. -/
def takeDigits : List Char → (List Char × List Char)
  | [] => ([], [])
  | c :: cs =>
    if c.isDigit then
      let p := takeDigits cs
      (c :: p.1, p.2)
    else ([], c :: cs)

/-- Numeric value of a digit string. -/
def natOfDigits (ds : List Char) : ℕ :=
  ds.foldl (fun n c => n * 10 + (c.toNat - 48)) 0

/-- JSON number: optional minus sign, integer part, optional fraction.
(Exponents are not needed by any input considered here.) -/
def parseNumber (cs : List Char) : Option (ℚ × List Char) :=
  let p := match cs with
    | '-' :: r => (true, r)
    | _ => (false, cs)
  let neg := p.1
  let d := takeDigits p.2
  if d.1.isEmpty then none
  else
    let intPart : ℚ := (natOfDigits d.1 : ℚ)
    match d.2 with
    | '.' :: cs3 =>
      let f := takeDigits cs3
      if f.1.isEmpty then none
      else
        let q := intPart + (natOfDigits f.1 : ℚ) / ((10 : ℚ) ^ f.1.length)
        some (if neg then -q else q, f.2)
    | rest => some (if neg then -intPart else intPart, rest)

mutual

/-- JSON value parser (fuelled). -/
def parseValue : Nat → List Char → Option (Json × List Char)
  | 0, _ => none
  | fuel + 1, cs =>
    let cs0 := skipWs cs
    match cs0 with
    | [] => none
    | c :: rest =>
      if c = lbrace then
        match skipWs rest with
        | c2 :: r2 =>
          if c2 = rbrace then some (.obj [], r2)
          else parseMembers fuel (c2 :: r2) []
        | [] => none
      else if c = '[' then
        match skipWs rest with
        | ']' :: r2 => some (.arr [], r2)
        | r2 => parseElements fuel r2 []
      else if c = '"' then
        match parseStrBody (rest.length + 1) rest with
        | some (s, r) => some (.str (String.mk s), r)
        | none => none
      else
        match cs0 with
        | 't' :: 'r' :: 'u' :: 'e' :: r => some (.bool true, r)
        | 'f' :: 'a' :: 'l' :: 's' :: 'e' :: r => some (.bool false, r)
        | 'n' :: 'u' :: 'l' :: 'l' :: r => some (.null, r)
        | _ =>
          match parseNumber cs0 with
          | some (q, r) => some (.num q, r)
          | none => none

/-- Members of a JSON object after the opening brace (nonempty case). -/
def parseMembers : Nat → List Char → List (String × Json) → Option (Json × List Char)
  | 0, _, _ => none
  | fuel + 1, cs, acc =>
    match skipWs cs with
    | '"' :: rest =>
      match parseStrBody (rest.length + 1) rest with
      | some (k, r) =>
        match skipWs r with
        | ':' :: r2 =>
          match parseValue fuel r2 with
          | some (v, r3) =>
            let acc' := acc ++ [(String.mk k, v)]
            match skipWs r3 with
            | c4 :: r4 =>
              if c4 = ',' then parseMembers fuel r4 acc'
              else if c4 = rbrace then some (.obj acc', r4)
              else none
            | [] => none
          | none => none
        | _ => none
      | none => none
    | _ => none

/-- Elements of a JSON array after the opening bracket (nonempty case). -/
def parseElements : Nat → List Char → List Json → Option (Json × List Char)
  | 0, _, _ => none
  | fuel + 1, cs, acc =>
    match parseValue fuel cs with
    | some (v, r) =>
      let acc' := acc ++ [v]
      match skipWs r with
      | ',' :: r2 => parseElements fuel r2 acc'
      | ']' :: r2 => some (.arr acc', r2)
      | _ => none
    | none => none

end

/-- Model of `json.loads`: decode a whole string as one JSON value
(surrounding whitespace allowed), or fail. -/
def jsonDecode (s : String) : Option Json :=
  match parseValue (s.length + 1) s.data with
  | some (v, rest) => if (skipWs rest).isEmpty then some v else none
  | none => none

/-- Python `str.find(c)`: index of the first occurrence, if any
(`-1` in Python is modelled by `none`). -/
def strFind : List Char → Char → Option ℕ
  | [], _ => none
  | c :: cs, t => if c = t then some 0 else (strFind cs t).map (· + 1)

/-- Python `str.rfind(c)`: index of the last occurrence, if any. -/
def strRfind : List Char → Char → Option ℕ
  | [], _ => none
  | c :: cs, t =>
    match strRfind cs t with
    | some i => some (i + 1)
    | none => if c = t then some 0 else none

/-- Python slice `text[s:e]`. -/
def sliceOf (text : String) (s e : ℕ) : String :=
  String.mk ((text.data.drop s).take (e - s))

/-- Error message when no JSON object span is present
(`ValueError("No JSON found in response")`, re-wrapped by the outer
`except` of `_parse_response`). -/
def noJsonMsg : String := "Failed to parse model response: No JSON found in response"

/-- Error message when `json.loads` fails on the extracted span. -/
def decodeFailMsg : String := "Failed to parse model response: invalid JSON"

/-- `WatsonXService._parse_response` (`docs/WATSONX_INTEGRATION.md`):
`json_start = text.find("{")`, `json_end = text.rfind("}") + 1`; when
`json_start != -1 and json_end > json_start` decode `text[json_start:json_end]`
with `json.loads`, otherwise — and on decode failure — raise `ValueError`.
Note: the function performs no required-field validation on the decoded
object. -/
def parse_response (text : String) : Except String Json :=
  let json_start := strFind text.data lbrace
  let json_end : ℕ :=
    match strRfind text.data rbrace with
    | some i => i + 1
    | none => 0
  match json_start with
  | some s =>
    if json_end > s then
      match jsonDecode (sliceOf text s json_end) with
      | some v => Except.ok v
      | none => Except.error decodeFailMsg
    else Except.error noJsonMsg
  | none => Except.error noJsonMsg

/-- The span of text from the first `{` to the last `}`, as the spec
describes it: present exactly when a `{` occurs and a `}` occurs at or
after it. -/
def specSpan (text : String) : Option String :=
  match strFind text.data lbrace, strRfind text.data rbrace with
  | some i, some j => if i ≤ j then some (sliceOf text i (j + 1)) else none
  | _, _ => none

/-- The fields `_parse_response`'s output is required to contain per the
prompt-engineering guide (`required_fields` in the Response Parsing
section). -/
def required_fields : List String := ["confidence", "rationale", "recommended_action"]

/-- Whether a decoded JSON object carries a given top-level field. -/
def hasField (j : Json) (k : String) : Bool :=
  match j with
  | .obj kvs => kvs.any (fun p => p.1 = k)
  | _ => false

example : jsonDecode "\x7b\"foo\": 1\x7d" =
    some (Json.obj [("foo", Json.num (natOfDigits ['1'] : ℚ))]) := by rfl

example : parse_response "prose \x7b\"foo\": 1\x7d more" =
    Except.ok (Json.obj [("foo", Json.num (natOfDigits ['1'] : ℚ))]) := by rfl

example : parse_response "no braces at all" = Except.error noJsonMsg := by rfl

example : parse_response "\x7boops\x7d" = Except.error decodeFailMsg := by rfl

/-! ## TokenTracker (`services/token_tracker.py`) -/

/-- Budget tracker state (`TokenTracker.__init__`): fixed dollar budget,
cumulative token count, request count.  `cost_per_1k_tokens` is the fixed
constant below. -/
structure TokenTracker where
  budget_usd : ℚ
  tokens_used : ℕ
  requests_count : ℕ
deriving Repr, DecidableEq

/-- `self.cost_per_1k_tokens = 0.0001`. -/
def cost_per_1k_tokens : ℚ := 1 / 10000

/-- `TokenTracker.add_usage`: record token usage of one request. -/
def TokenTracker.add_usage (t : TokenTracker) (tokens : ℕ) : TokenTracker :=
  { t with tokens_used := t.tokens_used + tokens,
           requests_count := t.requests_count + 1 }

/-- `TokenTracker.get_spent_usd`: `(tokens_used / 1000) * cost_per_1k_tokens`
(Python true division). -/
def TokenTracker.get_spent_usd (t : TokenTracker) : ℚ :=
  ((t.tokens_used : ℚ) / 1000) * cost_per_1k_tokens

/-- `TokenTracker.get_remaining_usd`. -/
def TokenTracker.get_remaining_usd (t : TokenTracker) : ℚ :=
  t.budget_usd - t.get_spent_usd

/-- `TokenTracker.is_budget_exceeded`: `get_remaining_usd() <= 0`. -/
def TokenTracker.is_budget_exceeded (t : TokenTracker) : Bool :=
  decide (t.get_remaining_usd ≤ 0)

/-- The tracker constructed by `WatsonXService.__init__`
(`TokenTracker(budget_usd=250.0)`). -/
def freshTracker : TokenTracker := ⟨250, 0, 0⟩

/-- The dollar cost the tracker attributes to a call of `c` tokens. -/
def costOfTokens (c : ℕ) : ℚ := ((c : ℚ) / 1000) * cost_per_1k_tokens

/-- One budget-gated model call, as `generate_explanation` performs it
against the tracker: the call is admitted only when the admission check
(`is_budget_exceeded` false) passes, and its measured token cost is added
afterwards via `add_usage`; a denied call leaves the tracker unchanged. -/
def budgetStep (t : TokenTracker) (cost : ℕ) : TokenTracker :=
  if t.is_budget_exceeded then t else t.add_usage cost

/-- A sequence of budget-gated model calls. -/
def budgetRun (t : TokenTracker) (costs : List ℕ) : TokenTracker :=
  costs.foldl budgetStep t

/-! ## Fallback templates and prompt builder -/

/-- High-risk canned fallback (`_fallback_response`, branch
`risk_score >= 0.8`). -/
def highRiskFallback (case_id : String) : Json :=
  .obj [("case_id", .str case_id),
        ("confidence", .num 0),
        ("rationale", .str "AI service unavailable. High-risk transaction requires manual review."),
        ("recommended_action", .str "HOLD transaction and escalate to senior analyst."),
        ("model_used", .str "fallback-rule-based"),
        ("tokens_consumed", .num 0)]

/-- Medium-risk canned fallback (branch `risk_score >= 0.5`). -/
def mediumRiskFallback (case_id : String) : Json :=
  .obj [("case_id", .str case_id),
        ("confidence", .num 0),
        ("rationale", .str "AI service unavailable. Medium-risk transaction detected."),
        ("recommended_action", .str "Review transaction details and customer history."),
        ("model_used", .str "fallback-rule-based"),
        ("tokens_consumed", .num 0)]

/-- Low-risk canned fallback (final branch). -/
def lowRiskFallback (case_id : String) : Json :=
  .obj [("case_id", .str case_id),
        ("confidence", .num 0),
        ("rationale", .str "AI service unavailable. Low-risk transaction."),
        ("recommended_action", .str "Approve with standard monitoring."),
        ("model_used", .str "fallback-rule-based"),
        ("tokens_consumed", .num 0)]

/-- `WatsonXService._fallback_response`: rule-based response when the AI
call fails, selected by thresholds on the preliminary risk score. -/
def fallback_response (case_id : String) (risk_score : ℚ) : Json :=
  if risk_score ≥ 4 / 5 then highRiskFallback case_id
  else if risk_score ≥ 1 / 2 then mediumRiskFallback case_id
  else lowRiskFallback case_id

/-- Two-decimal fixed-point rendering of a rational, modelling Python's
`f"{x:.2f}"` for the nonnegative amounts and scores that occur in the
prompt (rounding convention of ties is immaterial to every claim). -/
def formatFixed2 (q : ℚ) : String :=
  let neg := q < 0
  let cents : ℕ := (round (|q| * 100) : ℤ).toNat
  let ip := cents / 100
  let fp := cents % 100
  (if neg then "-" else "") ++ toString ip ++ "." ++
    (if fp < 10 then "0" ++ toString fp else toString fp)

/-- `build_risk_prompt` (`services/prompt_builder.py`): deterministic
prompt template over the case fields.  Literal braces of the JSON example
are written via their code points; numeric fields use the `.2f` model
above. -/
def build_risk_prompt (customer_name : String) (amount : ℚ)
    (country : String) (risk_score : ℚ) : String :=
  "You are an expert banking compliance analyst specializing in fraud detection and anti-money laundering (AML) compliance. Your role is to assess transaction risk, explain your reasoning clearly, and recommend appropriate actions following regulatory standards (FinCEN, BSA/AML).\n\nAnalyze this flagged banking transaction:\n\n**Transaction Details:**\n- Customer: "
    ++ customer_name
    ++ "\n- Amount: $" ++ formatFixed2 amount
    ++ " USD\n- Origin Country: " ++ country
    ++ "\n- Transaction Type: International Wire Transfer\n- Customer History: Typical transactions: $200-800 domestic, USA only\n\n**Current Risk Indicators:**\n- Preliminary Risk Score: "
    ++ formatFixed2 risk_score
    ++ "\n- Flagged Reasons: Unusual pattern detected\n\n**Your Task:**\n1. Assess the fraud/AML risk on a scale of 0.0 (no risk) to 1.0 (critical risk)\n2. Explain your reasoning in 2-3 clear sentences\n3. Recommend specific next actions for the compliance officer\n\n**Response Format (JSON):**\n```json\n\x7b\n  \"confidence\": 0.XX,\n  \"rationale\": \"...\",\n  \"recommended_action\": \"...\"\n\x7d\n```\n\n**Guidelines:**\n- Be concise but thorough\n- Reference specific red flags\n- Consider regulatory compliance requirements\n- Recommend proportional actions"

/-- `WatsonXService._estimate_tokens`: `(len(prompt) + len(response)) // 4`. -/
def estimate_tokens (prompt response : String) : ℕ :=
  (prompt.length + response.length) / 4

/-- `self.model_id`. -/
def model_id : String := "ibm/granite-13b-instruct-v2"

/-- Python dict assignment `d[k] = v` on an ordered association list:
replace in place when the key exists, append otherwise. -/
def setPair : List (String × Json) → String → Json → List (String × Json)
  | [], k, v => [(k, v)]
  | (k', v') :: rest, k, v =>
    if k' = k then (k, v) :: rest else (k', v') :: setPair rest k v

/-- Dict assignment on a JSON value (the parsed span always starts with
`{`, so the decoded value is an object; other shapes are left unchanged). -/
def setKey : Json → String → Json → Json
  | .obj kvs, k, v => .obj (setPair kvs k v)
  | j, _, _ => j

/-! ## `WatsonXService.generate_explanation` and the `/explain` endpoint -/

/-- Outcome of one `model.generate_text` attempt: either the raw text the
service returned, or an exception (timeout / 5xx / SDK failure). -/
inductive Attempt where
  | ok (text : String)
  | failure
deriving Repr, DecidableEq

/-- Result of `generate_explanation`: the returned dict or the
`BudgetExceededError` raise (modelled by `Except.error ()`), the tracker
state afterwards, and the number of external `generate_text` calls made. -/
structure GenOutcome where
  result : Except Unit Json
  tracker : TokenTracker
  calls : ℕ
deriving Repr

/-- `WatsonXService.generate_explanation`: raise `BudgetExceededError`
when the tracker reports the budget exhausted (before any network call);
otherwise build the prompt and make exactly one `generate_text` call,
whose behaviour is supplied by the head of `attempts` (the external
service's behaviour on successive attempts; an empty list behaves as a
failure).  A successful call is parsed with `_parse_response`; on success,
usage is recorded and metadata keys are set on the parsed dict; any
exception inside the `try` (network failure or parse `ValueError`) yields
`_fallback_response` with the tracker unchanged. -/
def generate_explanation (tr : TokenTracker) (case_id customer_name : String)
    (amount : ℚ) (country : String) (risk_score : ℚ)
    (attempts : List Attempt) : GenOutcome :=
  if tr.is_budget_exceeded then ⟨Except.error (), tr, 0⟩
  else
    let prompt := build_risk_prompt customer_name amount country risk_score
    match attempts.head? with
    | some (Attempt.ok text) =>
      match parse_response text with
      | Except.ok data =>
        let tokens := estimate_tokens prompt text
        let tr' := tr.add_usage tokens
        let data' := setKey (setKey (setKey data "case_id" (.str case_id))
                       "model_used" (.str model_id))
                       "tokens_consumed" (.num (tokens : ℚ))
        ⟨Except.ok data', tr', 1⟩
      | Except.error _ =>
        ⟨Except.ok (fallback_response case_id risk_score), tr, 1⟩
    | _ => ⟨Except.ok (fallback_response case_id risk_score), tr, 1⟩

/-- A `Case` row as the `/explain` endpoint reads it. -/
structure Case where
  id : String
  customer_name : String
  amount : ℚ
  country : String
  risk_score : ℚ
deriving Repr, DecidableEq

/-- The FastAPI `/explain` endpoint (`explain_case`): 404 when the case is
absent, 429 when `generate_explanation` raises `BudgetExceededError`,
otherwise the dict it returned.  (The endpoint's generic `except → 503`
branch is unreachable here because `generate_explanation` converts every
in-call exception to the fallback dict.) -/
def explain_case (caseOpt : Option Case) (tr : TokenTracker)
    (attempts : List Attempt) : Except ℕ (Json × TokenTracker × ℕ) :=
  match caseOpt with
  | none => Except.error 404
  | some c =>
    let g := generate_explanation tr c.id c.customer_name c.amount
               c.country c.risk_score attempts
    match g.result with
    | Except.error _ => Except.error 429
    | Except.ok d => Except.ok (d, g.tracker, g.calls)

/-! ## Response cache (`get_cached_explanation` / `cache_explanation`) -/

/-- The module-level `cache` dict: case identifier ↦ (explanation,
insertion timestamp).  Timestamps are seconds as rationals. -/
def CacheMap := String → Option (Json × ℚ)

/-- The initial empty `cache = {}`. -/
def emptyCache : CacheMap := fun _ => none

/-- `timedelta(hours=1)` in seconds. -/
def ttlSeconds : ℚ := 3600

/-- `cache_explanation`: `cache[case_id] = (explanation, datetime.now())`. -/
def cache_explanation (m : CacheMap) (case_id : String) (explanation : Json)
    (now : ℚ) : CacheMap :=
  fun k => if k = case_id then some (explanation, now) else m k

/-- `get_cached_explanation`: return the stored explanation while
`datetime.now() - timestamp < timedelta(hours=1)`, else `None`. -/
def get_cached_explanation (m : CacheMap) (case_id : String) (now : ℚ) :
    Option Json :=
  match m case_id with
  | some (data, ts) => if now - ts < ttlSeconds then some data else none
  | none => none

/-! ## Frontend risk classifier (`lib/api.ts`, `getRiskLevel`) -/

/-- Return shape of `getRiskLevel`. -/
structure RiskLevel where
  label : String
  color : String
  textColor : String
deriving Repr, DecidableEq

/-- `getRiskLevel` from the frontend API client: label and colors by
thresholds 0.7 and 0.4. -/
def getRiskLevel (score : ℚ) : RiskLevel :=
  if score ≥ 7 / 10 then ⟨"High Risk", "bg-red-100", "text-red-700"⟩
  else if score ≥ 2 / 5 then ⟨"Medium Risk", "bg-yellow-100", "text-yellow-700"⟩
  else ⟨"Low Risk", "bg-green-100", "text-green-700"⟩

theorem freshTracker_not_exceeded : freshTracker.is_budget_exceeded = false := by
  norm_num [TokenTracker.is_budget_exceeded, TokenTracker.get_remaining_usd,
    TokenTracker.get_spent_usd, freshTracker, cost_per_1k_tokens]

example : (budgetRun freshTracker [3000000000]).get_spent_usd = 300 := by
  simp only [budgetRun, List.foldl, budgetStep, freshTracker_not_exceeded,
    Bool.false_eq_true, if_false, TokenTracker.add_usage]
  norm_num [TokenTracker.get_spent_usd, freshTracker, cost_per_1k_tokens]

example :
    (generate_explanation freshTracker "c1" "Alice" 5000 "US" (7/10)
      [Attempt.failure]).calls = 1 := by
  simp [generate_explanation, freshTracker_not_exceeded]

/-! ## Helper definitions and lemmas for the claims -/

/-- Lookup of a top-level field of a decoded JSON object (Python `d[k]` /
`k in d`). -/
def jsonGet (j : Json) (k : String) : Option Json :=
  match j with
  | .obj kvs => (kvs.find? (fun p => p.1 == k)).map (fun p => p.2)
  | _ => none

/-- A tracker whose remaining budget is exactly `0.0`
(`TokenTracker(budget_usd=0.0)` before any usage; any tracker with
`spent = budget` behaves identically). -/
def zeroTracker : TokenTracker := ⟨0, 0, 0⟩

theorem zeroTracker_exceeded : zeroTracker.is_budget_exceeded = true := by
  norm_num [TokenTracker.is_budget_exceeded, TokenTracker.get_remaining_usd,
    TokenTracker.get_spent_usd, zeroTracker, cost_per_1k_tokens]

theorem spent_add_usage (t : TokenTracker) (c : ℕ) :
    (t.add_usage c).get_spent_usd = t.get_spent_usd + costOfTokens c := by
  simp only [TokenTracker.add_usage, TokenTracker.get_spent_usd, costOfTokens]
  push_cast
  ring

theorem costOfTokens_nonneg (c : ℕ) : 0 ≤ costOfTokens c := by
  unfold costOfTokens cost_per_1k_tokens
  positivity

theorem costOfTokens_mono {a b : ℕ} (h : a ≤ b) :
    costOfTokens a ≤ costOfTokens b := by
  unfold costOfTokens cost_per_1k_tokens
  have : (a : ℚ) ≤ (b : ℚ) := by exact_mod_cast h
  nlinarith

theorem budgetStep_budget (t : TokenTracker) (c : ℕ) :
    (budgetStep t c).budget_usd = t.budget_usd := by
  unfold budgetStep
  split <;> simp [TokenTracker.add_usage]

theorem budgetStep_spent_mono (t : TokenTracker) (c : ℕ) :
    t.get_spent_usd ≤ (budgetStep t c).get_spent_usd := by
  unfold budgetStep
  split
  · exact le_refl _
  · rw [spent_add_usage]
    linarith [costOfTokens_nonneg c]

theorem budgetStep_spent_bound (t : TokenTracker) (c M : ℕ) (hc : c ≤ M)
    (h : t.get_spent_usd ≤ t.budget_usd + costOfTokens M) :
    (budgetStep t c).get_spent_usd ≤ t.budget_usd + costOfTokens M := by
  unfold budgetStep
  split
  · exact h
  · rename_i hb
    have hnot : ¬ t.get_remaining_usd ≤ 0 := by
      simpa [TokenTracker.is_budget_exceeded] using hb
    have hlt : t.get_spent_usd < t.budget_usd := by
      unfold TokenTracker.get_remaining_usd at hnot
      linarith
    rw [spent_add_usage]
    have := costOfTokens_mono hc
    linarith

theorem budgetRun_props (costs : List ℕ) : ∀ (t0 : TokenTracker) (M : ℕ),
    (∀ c ∈ costs, c ≤ M) →
    t0.get_spent_usd ≤ t0.budget_usd + costOfTokens M →
    t0.get_spent_usd ≤ (budgetRun t0 costs).get_spent_usd ∧
    (budgetRun t0 costs).get_spent_usd ≤ t0.budget_usd + costOfTokens M ∧
    (budgetRun t0 costs).budget_usd = t0.budget_usd := by
  induction costs with
  | nil =>
    intro t0 M _ h0
    exact ⟨le_refl _, h0, rfl⟩
  | cons c cs ih =>
    intro t0 M hM h0
    have hstep : budgetRun t0 (c :: cs) = budgetRun (budgetStep t0 c) cs := rfl
    have hb := budgetStep_budget t0 c
    have hbound : (budgetStep t0 c).get_spent_usd ≤
        (budgetStep t0 c).budget_usd + costOfTokens M := by
      rw [hb]
      exact budgetStep_spent_bound t0 c M (hM c (by simp)) h0
    obtain ⟨hmono, hle, heq⟩ :=
      ih (budgetStep t0 c) M (fun x hx => hM x (by simp [hx])) hbound
    refine ⟨le_trans (budgetStep_spent_mono t0 c) (by rw [hstep]; exact hmono), ?_, ?_⟩
    · rw [hstep]
      calc (budgetRun (budgetStep t0 c) cs).get_spent_usd
          ≤ (budgetStep t0 c).budget_usd + costOfTokens M := hle
        _ = t0.budget_usd + costOfTokens M := by rw [hb]
    · rw [hstep, heq, hb]

/-! ## Claim C2 -/

/-- C2: every result produced by the rule-based fallback path, for any
case identifier and any preliminary risk score, carries
`tokens_consumed = 0` and `confidence = 0.0`. -/
theorem C2_fallback_zero_tokens_and_confidence (case_id : String) (risk_score : ℚ) :
    jsonGet (fallback_response case_id risk_score) "confidence" = some (Json.num 0) ∧
    jsonGet (fallback_response case_id risk_score) "tokens_consumed" = some (Json.num 0) := by
  unfold fallback_response
  split_ifs <;> exact ⟨rfl, rfl⟩

/-- C2 witness: concrete evaluation through the theorem. -/
theorem C2_witness :
    jsonGet (fallback_response "case-1" (94/100)) "confidence" = some (Json.num 0) ∧
    jsonGet (fallback_response "case-1" (94/100)) "tokens_consumed" = some (Json.num 0) :=
  C2_fallback_zero_tokens_and_confidence "case-1" (94/100)

/-! ## Claim C3 -/

/-- C3: the fallback response selects exactly one of three canned
templates by threshold on the preliminary risk score: the high-risk
template when `score ≥ 0.8`, the medium-risk template when
`0.5 ≤ score < 0.8`, and the low-risk template when `score < 0.5`. -/
theorem C3_fallback_template_selection (case_id : String) (risk_score : ℚ) :
    (4/5 ≤ risk_score →
      fallback_response case_id risk_score = highRiskFallback case_id) ∧
    (1/2 ≤ risk_score ∧ risk_score < 4/5 →
      fallback_response case_id risk_score = mediumRiskFallback case_id) ∧
    (risk_score < 1/2 →
      fallback_response case_id risk_score = lowRiskFallback case_id) := by
  refine ⟨fun h => ?_, fun h => ?_, fun h => ?_⟩
  · unfold fallback_response
    rw [if_pos h]
  · obtain ⟨h1, h2⟩ := h
    unfold fallback_response
    rw [if_neg (by exact fun hx => absurd hx (not_le.mpr h2)), if_pos h1]
  · unfold fallback_response
    rw [if_neg (by intro hx; exact absurd hx (not_le.mpr (by linarith))),
        if_neg (not_le.mpr h)]

/-- C3 witness: the three branches at concrete scores 0.9, 0.6, 0.1. -/
theorem C3_witness :
    fallback_response "c" (9/10) = highRiskFallback "c" ∧
    fallback_response "c" (3/5) = mediumRiskFallback "c" ∧
    fallback_response "c" (1/10) = lowRiskFallback "c" :=
  ⟨(C3_fallback_template_selection "c" (9/10)).1 (by norm_num),
   (C3_fallback_template_selection "c" (3/5)).2.1 ⟨by norm_num, by norm_num⟩,
   (C3_fallback_template_selection "c" (1/10)).2.2 (by norm_num)⟩

/-! ## Claim C6 -/

/-- C6: a cache lookup after `cache_explanation` returns the stored value
while `now - insertion_timestamp < validity_window` (one hour), and
reports a miss at or after expiry. -/
theorem C6_cache_validity_window (m : CacheMap) (case_id : String) (v : Json)
    (t now : ℚ) :
    (now - t < ttlSeconds →
      get_cached_explanation (cache_explanation m case_id v t) case_id now = some v) ∧
    (ttlSeconds ≤ now - t →
      get_cached_explanation (cache_explanation m case_id v t) case_id now = none) := by
  constructor
  · intro h
    simp [get_cached_explanation, cache_explanation, h]
  · intro h
    have hn : ¬ (now - t < ttlSeconds) := not_lt.mpr h
    simp [get_cached_explanation, cache_explanation, hn]

/-- C6 witness: hit 10 seconds after insertion, miss 5000 seconds after. -/
theorem C6_witness :
    get_cached_explanation (cache_explanation emptyCache "X" Json.null 0) "X" 10 =
      some Json.null ∧
    get_cached_explanation (cache_explanation emptyCache "X" Json.null 0) "X" 5000 =
      none :=
  ⟨(C6_cache_validity_window emptyCache "X" Json.null 0 10).1
     (by norm_num [ttlSeconds]),
   (C6_cache_validity_window emptyCache "X" Json.null 0 5000).2
     (by norm_num [ttlSeconds])⟩

/-! ## Claim C7 -/

/-- A risk-score-shaped result (the shape of the risk-score operation's
output per the API contract), as opposed to an explanation-shaped one. -/
def riskScoreResult : Json :=
  .obj [("case_id", .str "X"),
        ("risk_score", .num (17/20)),
        ("risk_level", .str "HIGH"),
        ("reasoning", .str "Amount far above typical history")]

/-- C7 counterexample: the documented cache (`cache[case_id] =
(explanation, now)`) is keyed by the case identifier alone — there is no
operation-kind component in the key — so a result stored for one
operation kind on case "X" (here a risk-score-shaped result) IS returned
by the explanation lookup for case "X" within the window, refuting the
claim that a result stored for one operation kind is never returned for a
lookup of a different operation kind on the same case. -/
theorem C7_counterexample :
    get_cached_explanation (cache_explanation emptyCache "X" riskScoreResult 0)
      "X" 60 = some riskScoreResult := by
  norm_num [get_cached_explanation, cache_explanation, ttlSeconds]

/-- C7 amended: the cache is keyed by case identifier alone; whatever
result — of whichever operation kind and shape — was most recently stored
under a case identifier is returned for any lookup of that case within
the validity window, and a later store under the same case identifier
overwrites the earlier one even when the two results belong to different
operation kinds. -/
theorem C7_amended_case_id_sole_key (m : CacheMap) (case_id : String)
    (r1 r2 : Json) (t1 t2 now : ℚ) (h : now - t2 < ttlSeconds) :
    get_cached_explanation
      (cache_explanation (cache_explanation m case_id r1 t1) case_id r2 t2)
      case_id now = some r2 := by
  simp [get_cached_explanation, cache_explanation, h]

/-- C7 witness: an explanation-shaped store overwritten by a risk-score-
shaped store under the same case identifier; the lookup returns the
latter. -/
theorem C7_witness :
    get_cached_explanation
      (cache_explanation (cache_explanation emptyCache "X" Json.null 0)
        "X" riskScoreResult 30) "X" 60 = some riskScoreResult :=
  C7_amended_case_id_sole_key emptyCache "X" Json.null riskScoreResult 0 30 60
    (by norm_num [ttlSeconds])

/-! ## Claim C10 -/

theorem getRiskLevel_high_at_075 : (getRiskLevel (3/4)).label = "High Risk" := by
  norm_num [getRiskLevel]

theorem fallback_medium_at_075 :
    fallback_response "c" (3/4) = mediumRiskFallback "c" := by
  norm_num [fallback_response]

theorem getRiskLevel_medium_at_045 : (getRiskLevel (9/20)).label = "Medium Risk" := by
  norm_num [getRiskLevel]

theorem fallback_low_at_045 :
    fallback_response "c" (9/20) = lowRiskFallback "c" := by
  norm_num [fallback_response]

/-- C10: `getRiskLevel` is total on numeric scores and assigns exactly one
label to every score — "High Risk" iff `score ≥ 0.7`, "Medium Risk" iff
`0.4 ≤ score < 0.7`, "Low Risk" iff `score < 0.4` — and these thresholds
differ from the 0.8/0.5 thresholds of the fallback template selection:
at score 0.75 the UI says High Risk while the fallback picks the
medium-risk template, and at 0.45 the UI says Medium Risk while the
fallback picks the low-risk template. -/
theorem C10_getRiskLevel_classification (score : ℚ) :
    ((getRiskLevel score).label = "High Risk" ↔ 7/10 ≤ score) ∧
    ((getRiskLevel score).label = "Medium Risk" ↔ 2/5 ≤ score ∧ score < 7/10) ∧
    ((getRiskLevel score).label = "Low Risk" ↔ score < 2/5) ∧
    (getRiskLevel (3/4)).label = "High Risk" ∧
    fallback_response "c" (3/4) = mediumRiskFallback "c" ∧
    (getRiskLevel (9/20)).label = "Medium Risk" ∧
    fallback_response "c" (9/20) = lowRiskFallback "c" := by
  refine ⟨?_, ?_, ?_, getRiskLevel_high_at_075, fallback_medium_at_075,
    getRiskLevel_medium_at_045, fallback_low_at_045⟩
  · unfold getRiskLevel
    split_ifs with h1 h2
    · simpa using h1
    · constructor
      · intro he
        exact absurd he (by decide)
      · intro hc
        exact absurd hc h1
    · constructor
      · intro he
        exact absurd he (by decide)
      · intro hc
        exact absurd hc h1
  · unfold getRiskLevel
    split_ifs with h1 h2
    · constructor
      · intro he
        exact absurd he (by decide)
      · intro hc
        exact absurd h1 (not_le.mpr hc.2)
    · constructor
      · intro _
        exact ⟨h2, not_le.mp h1⟩
      · intro _
        rfl
    · constructor
      · intro he
        exact absurd he (by decide)
      · intro hc
        exact absurd hc.1 h2
  · unfold getRiskLevel
    split_ifs with h1 h2
    · constructor
      · intro he
        exact absurd he (by decide)
      · intro hc
        exact absurd h1 (not_le.mpr (by linarith))
    · constructor
      · intro he
        exact absurd he (by decide)
      · intro hc
        exact absurd h2 (not_le.mpr hc)
    · constructor
      · intro _
        exact not_le.mp h2
      · intro _
        rfl

/-- C10 witness: the classifier through the theorem at concrete scores. -/
theorem C10_witness :
    (getRiskLevel (7/10)).label = "High Risk" ∧
    (getRiskLevel (1/2)).label = "Medium Risk" ∧
    (getRiskLevel (1/10)).label = "Low Risk" :=
  ⟨(C10_getRiskLevel_classification (7/10)).1.mpr (by norm_num),
   (C10_getRiskLevel_classification (1/2)).2.1.mpr ⟨by norm_num, by norm_num⟩,
   (C10_getRiskLevel_classification (1/10)).2.2.1.mpr (by norm_num)⟩

/-! ## Claim C1 -/

/-- C1 counterexample: the admission check of the code
(`is_budget_exceeded`, i.e. `remaining <= 0`) only requires that some
budget remains, not that the upcoming call's cost fits.  Starting from
the fresh $250 tracker, a single admitted call whose measured usage is
3 000 000 000 tokens passes the admission check (remaining = 250 > 0) and
afterwards the cumulative spent cost is $300 > $250: cumulative spent
cost exceeds the fixed total budget, refuting the claim. -/
theorem C1_counterexample :
    (budgetRun freshTracker [3000000000]).get_spent_usd >
      freshTracker.budget_usd := by
  simp only [budgetRun, List.foldl, budgetStep, freshTracker_not_exceeded,
    Bool.false_eq_true, if_false, TokenTracker.add_usage]
  norm_num [TokenTracker.get_spent_usd, freshTracker, cost_per_1k_tokens]

/-- C1 amended: over any sequence of budget-gated calls (each admitted
only after the admission check passes, with its measured cost added
afterwards), spent cost is monotonically non-decreasing and the budget
field never changes, and — since a call is admitted only while
`spent < budget` — the cumulative spent cost never exceeds the budget
plus the cost of one largest single call.  It can, however, exceed the
budget itself by up to one call's cost (see the counterexample), because
admission only requires `remaining > 0`, not `remaining ≥ estimated
cost`. -/
theorem C1_amended_monotone_overshoot_bound (t0 : TokenTracker)
    (costs : List ℕ) (M : ℕ) (hM : ∀ c ∈ costs, c ≤ M)
    (h0 : t0.get_spent_usd ≤ t0.budget_usd + costOfTokens M) :
    t0.get_spent_usd ≤ (budgetRun t0 costs).get_spent_usd ∧
    (budgetRun t0 costs).get_spent_usd ≤ t0.budget_usd + costOfTokens M ∧
    (budgetRun t0 costs).budget_usd = t0.budget_usd :=
  budgetRun_props costs t0 M hM h0

/-- C1 witness: the amended bound evaluated on the fresh tracker with two
admitted 1000-token calls. -/
theorem C1_witness :
    freshTracker.get_spent_usd ≤
      (budgetRun freshTracker [1000, 1000]).get_spent_usd ∧
    (budgetRun freshTracker [1000, 1000]).get_spent_usd ≤
      freshTracker.budget_usd + costOfTokens 1000 ∧
    (budgetRun freshTracker [1000, 1000]).budget_usd = freshTracker.budget_usd :=
  C1_amended_monotone_overshoot_bound freshTracker [1000, 1000] 1000
    (by simp)
    (by norm_num [TokenTracker.get_spent_usd, freshTracker, costOfTokens,
          cost_per_1k_tokens])

/-! ## Claim C4 -/

/-- C4 counterexample: `_parse_response` performs no required-field
validation.  On a raw output whose JSON object lacks every field required
for the explain operation (`confidence`, `rationale`,
`recommended_action`), the parser returns the decoded object as a value
instead of reporting a validation error, refuting the missing-field
clause of the claim. -/
theorem C4_counterexample :
    parse_response "Sure! Here is my assessment: \x7b\"foo\": true\x7d" =
      Except.ok (Json.obj [("foo", Json.bool true)]) ∧
    required_fields.all
      (fun k => hasField (Json.obj [("foo", Json.bool true)]) k) = false :=
  ⟨rfl, rfl⟩

/-- C4 amended: the parser locates the first `{` and the last `}` in the
text and attempts to decode exactly that span as JSON, tolerating leading
and trailing prose; when no such span exists or when decoding fails it
reports an error rather than returning a value.  (It does NOT check the
decoded object for the operation's required fields — see the
counterexample.) -/
theorem C4_amended_first_last_brace_span (text : String) :
    parse_response text =
      match specSpan text with
      | some s =>
        match jsonDecode s with
        | some v => Except.ok v
        | none => Except.error decodeFailMsg
      | none => Except.error noJsonMsg := by
  unfold parse_response specSpan
  cases hf : strFind text.data lbrace with
  | none =>
    cases hr : strRfind text.data rbrace <;> simp
  | some i =>
    cases hr : strRfind text.data rbrace with
    | none => simp
    | some j =>
      by_cases hij : i ≤ j
      · have hgt : j + 1 > i := Nat.lt_succ_of_le hij
        simp only [hgt, if_pos hij, if_true]
      · have hngt : ¬ (j + 1 > i) := by omega
        simp [hngt, hij]

/-- C4 witness: the amended characterization evaluated on prose
surrounding a JSON object. -/
theorem C4_witness :
    parse_response "prose \x7b\"a\": null\x7d tail" =
      match specSpan "prose \x7b\"a\": null\x7d tail" with
      | some s =>
        match jsonDecode s with
        | some v => Except.ok v
        | none => Except.error decodeFailMsg
      | none => Except.error noJsonMsg :=
  C4_amended_first_last_brace_span "prose \x7b\"a\": null\x7d tail"

/-! ## Claims C5, C8, C9: `generate_explanation` and the endpoint -/

/-- A well-formed raw model output: parses and carries every required
field. -/
def goodResponseText : String :=
  "\x7b\"confidence\": 1, \"rationale\": \"Suspicious pattern\", \"recommended_action\": \"Hold\"\x7d"

/-- The decoded value of `goodResponseText`. -/
def goodParsed : Json :=
  Json.obj [("confidence", Json.num (natOfDigits ['1'] : ℚ)),
            ("rationale", Json.str "Suspicious pattern"),
            ("recommended_action", Json.str "Hold")]

example : parse_response goodResponseText = Except.ok goodParsed := by rfl

/-- When the budget admission check passes, `generate_explanation`
always produces a returned dict (never raises): every exception inside
the `try` is converted to the fallback dict. -/
theorem generate_result_ok_of_not_exceeded (tr : TokenTracker)
    (cid cn : String) (amt : ℚ) (ctry : String) (rs : ℚ)
    (attempts : List Attempt) (hb : tr.is_budget_exceeded = false) :
    ∃ j, (generate_explanation tr cid cn amt ctry rs attempts).result =
      Except.ok j := by
  rcases attempts with _ | ⟨a, rest⟩
  · exact ⟨fallback_response cid rs, by simp [generate_explanation, hb]⟩
  · cases a with
    | failure => exact ⟨fallback_response cid rs, by simp [generate_explanation, hb]⟩
    | ok text =>
      cases hp : parse_response text with
      | ok v =>
        exact ⟨setKey (setKey (setKey v "case_id" (.str cid))
                 "model_used" (.str model_id)) "tokens_consumed"
                 (.num ((estimate_tokens (build_risk_prompt cn amt ctry rs) text : ℕ) : ℚ)),
               by simp [generate_explanation, hb, hp]⟩
      | error e =>
        exact ⟨fallback_response cid rs, by simp [generate_explanation, hb, hp]⟩

/-- C5 counterexample: the inference layer never retries.  With a fresh
budget, when the first external call fails transiently and a second
attempt would have succeeded (the service's next output parses and has
every required field), `generate_explanation` still makes exactly ONE
external call and returns the rule-based fallback — there is no second
attempt, refuting the claimed bound of 3 attempts with backoff. -/
theorem C5_counterexample :
    (generate_explanation freshTracker "c1" "Alice" 5000 "US" (94/100)
       [Attempt.failure, Attempt.ok goodResponseText]).calls = 1 ∧
    (generate_explanation freshTracker "c1" "Alice" 5000 "US" (94/100)
       [Attempt.failure, Attempt.ok goodResponseText]).result =
      Except.ok (fallback_response "c1" (94/100)) ∧
    parse_response goodResponseText = Except.ok goodParsed ∧
    required_fields.all (fun k => hasField goodParsed k) = true := by
  refine ⟨?_, ?_, rfl, rfl⟩ <;>
    simp [generate_explanation, freshTracker_not_exceeded]

/-- C5 amended: the inference layer makes at most one external call per
request and never retries — any failure of the single attempt (transient
failure or malformed response alike) yields the rule-based fallback
immediately, and a budget denial makes no external call at all.
(Retry with exponential backoff is only a suggestion in the
troubleshooting documentation; it is not implemented.) -/
theorem C5_amended_single_attempt_no_retry (tr : TokenTracker)
    (cid cn : String) (amt : ℚ) (ctry : String) (rs : ℚ)
    (attempts : List Attempt) :
    (generate_explanation tr cid cn amt ctry rs attempts).calls ≤ 1 ∧
    (tr.is_budget_exceeded = true →
      generate_explanation tr cid cn amt ctry rs attempts =
        ⟨Except.error (), tr, 0⟩) ∧
    (tr.is_budget_exceeded = false → attempts.head? = some Attempt.failure →
      generate_explanation tr cid cn amt ctry rs attempts =
        ⟨Except.ok (fallback_response cid rs), tr, 1⟩) := by
  by_cases hb : tr.is_budget_exceeded = true
  · refine ⟨by simp [generate_explanation, hb], fun _ => by simp [generate_explanation, hb],
      fun hf _ => ?_⟩
    rw [hb] at hf
    cases hf
  · have hb' : tr.is_budget_exceeded = false := by simpa using hb
    refine ⟨?_, fun h => ?_, fun _ hh => ?_⟩
    · rcases attempts with _ | ⟨a, rest⟩
      · simp [generate_explanation, hb']
      · cases a with
        | failure => simp [generate_explanation, hb']
        | ok text =>
          cases hp : parse_response text with
          | ok v => simp [generate_explanation, hb', hp]
          | error e => simp [generate_explanation, hb', hp]
    · rw [h] at hb'
      cases hb'
    · rcases attempts with _ | ⟨a, rest⟩
      · simp at hh
      · simp only [List.head?_cons, Option.some.injEq] at hh
        subst hh
        simp [generate_explanation, hb']

/-- C5 witness: both hypotheses of the amended theorem discharged at
concrete inputs — an exhausted tracker makes no call, and a fresh tracker
with a failing attempt falls back after one call. -/
theorem C5_witness :
    generate_explanation zeroTracker "c" "n" 100 "US" (1/2) [] =
      ⟨Except.error (), zeroTracker, 0⟩ ∧
    generate_explanation freshTracker "c" "n" 100 "US" (1/2) [Attempt.failure] =
      ⟨Except.ok (fallback_response "c" (1/2)), freshTracker, 1⟩ :=
  ⟨(C5_amended_single_attempt_no_retry zeroTracker "c" "n" 100 "US" (1/2) []).2.1
     zeroTracker_exceeded,
   (C5_amended_single_attempt_no_retry freshTracker "c" "n" 100 "US" (1/2)
     [Attempt.failure]).2.2 freshTracker_not_exceeded rfl⟩

/-- C8 counterexample: with remaining budget exactly 0.0, an Explain call
does NOT take the fallback path — `generate_explanation` raises
`BudgetExceededError` (surfaced by the endpoint as HTTP 429).  The parts
of the claim about no network call (0 external calls) and `requestCount`
unchanged do hold; the "immediate fallback" part is refuted. -/
theorem C8_counterexample :
    (generate_explanation zeroTracker "c" "n" 100 "US" (1/2)
       [Attempt.ok goodResponseText]).result = Except.error () ∧
    (generate_explanation zeroTracker "c" "n" 100 "US" (1/2)
       [Attempt.ok goodResponseText]).result ≠
      Except.ok (fallback_response "c" (1/2)) ∧
    (generate_explanation zeroTracker "c" "n" 100 "US" (1/2)
       [Attempt.ok goodResponseText]).calls = 0 ∧
    (generate_explanation zeroTracker "c" "n" 100 "US" (1/2)
       [Attempt.ok goodResponseText]).tracker.requests_count =
      zeroTracker.requests_count := by
  have key : generate_explanation zeroTracker "c" "n" 100 "US" (1/2)
      [Attempt.ok goodResponseText] = ⟨Except.error (), zeroTracker, 0⟩ := by
    simp [generate_explanation, zeroTracker_exceeded]
  refine ⟨by rw [key], ?_, by rw [key], by rw [key]⟩
  rw [key]
  simp

/-- C8 amended: when the remaining budget is ≤ 0, every Explain call
raises `BudgetExceededError` before any network call — no external
attempt is consumed, the tracker (including `requests_count`) is
unchanged — rather than taking the fallback path; the endpoint surfaces
this as HTTP 429. -/
theorem C8_amended_budget_error_no_call (tr : TokenTracker)
    (cid cn : String) (amt : ℚ) (ctry : String) (rs : ℚ)
    (attempts : List Attempt) (h : tr.get_remaining_usd ≤ 0) :
    generate_explanation tr cid cn amt ctry rs attempts =
      ⟨Except.error (), tr, 0⟩ ∧
    (generate_explanation tr cid cn amt ctry rs attempts).tracker.requests_count =
      tr.requests_count ∧
    (generate_explanation tr cid cn amt ctry rs attempts).calls = 0 := by
  have hb : tr.is_budget_exceeded = true := by
    simp [TokenTracker.is_budget_exceeded, h]
  have key : generate_explanation tr cid cn amt ctry rs attempts =
      ⟨Except.error (), tr, 0⟩ := by
    simp [generate_explanation, hb]
  exact ⟨key, by rw [key], by rw [key]⟩

/-- C8 witness: the amended theorem at the zero-budget tracker. -/
theorem C8_witness :
    generate_explanation zeroTracker "c8" "n" 50 "US" (9/10) [Attempt.failure] =
      ⟨Except.error (), zeroTracker, 0⟩ ∧
    (generate_explanation zeroTracker "c8" "n" 50 "US" (9/10)
       [Attempt.failure]).tracker.requests_count = zeroTracker.requests_count ∧
    (generate_explanation zeroTracker "c8" "n" 50 "US" (9/10)
       [Attempt.failure]).calls = 0 :=
  C8_amended_budget_error_no_call zeroTracker "c8" "n" 50 "US" (9/10)
    [Attempt.failure]
    (by norm_num [TokenTracker.get_remaining_usd, TokenTracker.get_spent_usd,
          zeroTracker, cost_per_1k_tokens])

/-- A concrete existing case, as in the API contract's example. -/
def testCase : Case := ⟨"X1", "Alice Johnson", 5300, "SG", 41/50⟩

/-- C9 counterexample: an existing (valid) case does NOT always receive a
result — with the budget exhausted, the `/explain` endpoint maps the
`BudgetExceededError` to HTTP 429, a user-facing error other than
NotFound, refuting both "always returns a result" and "only NotFound
(and UnsupportedType) ever reach the caller". -/
theorem C9_counterexample :
    explain_case (some testCase) zeroTracker [Attempt.ok goodResponseText] =
      Except.error 429 := by
  simp [explain_case, generate_explanation, zeroTracker_exceeded]

/-- C9 amended: for every existing case, the explain operation returns a
result whenever the budget admission check passes.  ServiceUnavailable
failures (the external call raising) and MalformedResponse failures in
the parse-error sense (no JSON span, or an undecodable span) are
absorbed into the rule-based fallback result rather than propagated; a
response that parses but lacks the operation's required fields is
returned as-is (metadata-decorated, not the fallback — still a result,
never an error).  The only user-facing errors the endpoint ever returns
are 404 (NotFound) and 429 (BudgetExceeded); a budget denial on a valid
case does surface as 429 rather than a result. -/
theorem C9_amended_error_propagation (c : Case) (tr : TokenTracker)
    (attempts : List Attempt) (caseOpt : Option Case) (e : ℕ)
    (text msg : String) (data : Json) :
    (tr.is_budget_exceeded = false →
      ∃ p, explain_case (some c) tr attempts = Except.ok p) ∧
    (tr.is_budget_exceeded = false → attempts.head? = some Attempt.failure →
      explain_case (some c) tr attempts =
        Except.ok (fallback_response c.id c.risk_score, tr, 1)) ∧
    (tr.is_budget_exceeded = false →
      attempts.head? = some (Attempt.ok text) →
      parse_response text = Except.error msg →
      explain_case (some c) tr attempts =
        Except.ok (fallback_response c.id c.risk_score, tr, 1)) ∧
    (tr.is_budget_exceeded = false →
      attempts.head? = some (Attempt.ok text) →
      parse_response text = Except.ok data →
      explain_case (some c) tr attempts =
        Except.ok (setKey (setKey (setKey data "case_id" (.str c.id))
            "model_used" (.str model_id)) "tokens_consumed"
            (.num ((estimate_tokens
              (build_risk_prompt c.customer_name c.amount c.country c.risk_score)
              text : ℕ) : ℚ)),
          tr.add_usage (estimate_tokens
            (build_risk_prompt c.customer_name c.amount c.country c.risk_score)
            text), 1)) ∧
    (explain_case caseOpt tr attempts = Except.error e → e = 404 ∨ e = 429) := by
  refine ⟨fun hb => ?_, fun hb hh => ?_, fun hb hh hp => ?_, fun hb hh hp => ?_,
    fun he => ?_⟩
  · obtain ⟨j, hj⟩ := generate_result_ok_of_not_exceeded tr c.id c.customer_name
      c.amount c.country c.risk_score attempts hb
    exact ⟨(j, (generate_explanation tr c.id c.customer_name c.amount
      c.country c.risk_score attempts).tracker,
      (generate_explanation tr c.id c.customer_name c.amount
      c.country c.risk_score attempts).calls), by simp [explain_case, hj]⟩
  · rcases attempts with _ | ⟨a, rest⟩
    · simp at hh
    · simp only [List.head?_cons, Option.some.injEq] at hh
      subst hh
      simp [explain_case, generate_explanation, hb]
  · rcases attempts with _ | ⟨a, rest⟩
    · simp at hh
    · simp only [List.head?_cons, Option.some.injEq] at hh
      subst hh
      simp [explain_case, generate_explanation, hb, hp]
  · rcases attempts with _ | ⟨a, rest⟩
    · simp at hh
    · simp only [List.head?_cons, Option.some.injEq] at hh
      subst hh
      simp [explain_case, generate_explanation, hb, hp]
  · rcases caseOpt with _ | c'
    · left
      have h4 : Except.error (α := Json × TokenTracker × ℕ) (ε := ℕ) 404 =
          Except.error e := by simpa [explain_case] using he
      simpa using h4.symm
    · cases hg : (generate_explanation tr c'.id c'.customer_name c'.amount
        c'.country c'.risk_score attempts).result with
      | ok j =>
        rw [show explain_case (some c') tr attempts = Except.ok
          (j, (generate_explanation tr c'.id c'.customer_name c'.amount
            c'.country c'.risk_score attempts).tracker,
            (generate_explanation tr c'.id c'.customer_name c'.amount
            c'.country c'.risk_score attempts).calls) from by
              simp [explain_case, hg]] at he
        cases he
      | error u =>
        right
        have h4 : Except.error (α := Json × TokenTracker × ℕ) (ε := ℕ) 429 =
            Except.error e := by simpa [explain_case, hg] using he
        simpa using h4.symm

/-- C9 witness: the amended theorem at concrete inputs — a valid case
with a failing attempt (ServiceUnavailable) yields the fallback result,
a valid case with an undecodable response (MalformedResponse) yields the
fallback result, a valid case with a parseable response yields that
response decorated as-is, and the only error codes are 404/429
(instantiated at the missing-case path). -/
theorem C9_witness :
    explain_case (some testCase) freshTracker [Attempt.failure] =
      Except.ok (fallback_response testCase.id testCase.risk_score,
        freshTracker, 1) ∧
    explain_case (some testCase) freshTracker [Attempt.ok "\x7boops\x7d"] =
      Except.ok (fallback_response testCase.id testCase.risk_score,
        freshTracker, 1) ∧
    explain_case (some testCase) freshTracker [Attempt.ok goodResponseText] =
      Except.ok (setKey (setKey (setKey goodParsed "case_id" (.str testCase.id))
          "model_used" (.str model_id)) "tokens_consumed"
          (.num ((estimate_tokens
            (build_risk_prompt testCase.customer_name testCase.amount
              testCase.country testCase.risk_score) goodResponseText : ℕ) : ℚ)),
        freshTracker.add_usage (estimate_tokens
          (build_risk_prompt testCase.customer_name testCase.amount
            testCase.country testCase.risk_score) goodResponseText), 1) ∧
    ((404 : ℕ) = 404 ∨ (404 : ℕ) = 429) :=
  ⟨(C9_amended_error_propagation testCase freshTracker [Attempt.failure]
      none 404 "" "" Json.null).2.1 freshTracker_not_exceeded rfl,
   (C9_amended_error_propagation testCase freshTracker
      [Attempt.ok "\x7boops\x7d"] none 404 "\x7boops\x7d" decodeFailMsg
      Json.null).2.2.1 freshTracker_not_exceeded rfl rfl,
   (C9_amended_error_propagation testCase freshTracker
      [Attempt.ok goodResponseText] none 404 goodResponseText ""
      goodParsed).2.2.2.1 freshTracker_not_exceeded rfl rfl,
   (C9_amended_error_propagation testCase freshTracker [Attempt.failure]
      none 404 "" "" Json.null).2.2.2.2 rfl⟩
